import Mathlib

/-
Shallow embedding of `src/app.py` (a Dash COVID-19 dashboard).

The pipeline in the source:
  * load a wide CSV: one row per (Province/State, Country/Region) with one
    column per date holding the cumulative confirmed count;
  * `melt` the date columns into long rows (line 15);
  * `groupby(['Country/Region','Date'])['Confirmed'].sum().reset_index()`
    (line 22), producing `covid_data_grouped` sorted by (country, date);
  * `groupby('Country/Region')['Confirmed'].diff().fillna(0)` (line 25)
    adding the `New_Cases` column;
  * the callback `update_graphs` (lines 73-114) filters by date range and
    selected countries and computes summary aggregates.

Modelling choices: country and province identifiers are encoded as naturals
(pandas compares country strings only by equality and lexicographic order,
so any order-embedding is faithful); dates are naturals (chronological day
numbers, as produced by `pd.to_datetime`); confirmed counts are integers
(the CSV holds integers; `diff` can be negative).  Latitude/longitude are
carried as unused integer fields, mirroring the unused `Lat`/`Long` columns.
-/

/-- A row of the wide input CSV: identifying columns plus, for each date
column `d`, the cumulative confirmed count `values d`. -/
structure WideRow where
  province : Nat
  country : Nat
  lat : Int
  long : Int
  values : Nat → Int

/-- A row of the melted (long-form) table: the id columns plus one
(Date, Confirmed) pair taken from one date column of the wide table. -/
structure LongRow where
  province : Nat
  country : Nat
  lat : Int
  long : Int
  date : Nat
  confirmed : Int
deriving DecidableEq, Repr

/-- A row of the grouped table before the `New_Cases` column is added. -/
structure GRow where
  country : Nat
  date : Nat
  confirmed : Int
deriving DecidableEq, Repr

/-- A row of `covid_data_grouped` after line 25: country, date, summed
confirmed count and the derived new-cases value. -/
structure GRowN where
  country : Nat
  date : Nat
  confirmed : Int
  new_cases : Int
deriving DecidableEq, Repr

instance : Inhabited GRowN := ⟨⟨0, 0, 0, 0⟩⟩

/-- Default row used with `List.getD` in statements about row indices. -/
def gdefault : GRowN := ⟨0, 0, 0, 0⟩

/-- Line 15: `covid_data.melt(id_vars=[...], var_name='Date',
value_name='Confirmed')`.  Pandas stacks the value columns one after the
other: for each date column (in column order) it emits all rows. -/
def covid_data_melted (dates : List Nat) (rows : List WideRow) : List LongRow :=
  dates.flatMap fun d =>
    rows.map fun w => ⟨w.province, w.country, w.lat, w.long, d, w.values d⟩

/-- The summed confirmed count for one `(country, date)` group of the
melted table, as computed by `groupby([...])['Confirmed'].sum()`. -/
def sumConfirmed (t : List LongRow) (c d : Nat) : Int :=
  ((t.filter fun r => decide (r.country = c) && decide (r.date = d)).map
    LongRow.confirmed).sum

/-- The lexicographic order on `(country, date)` keys by which pandas
`groupby(['Country/Region','Date'])` sorts its result. -/
def keyLE (a b : Nat × Nat) : Prop :=
  a.1 < b.1 ∨ (a.1 = b.1 ∧ a.2 ≤ b.2)

instance : DecidableRel keyLE := fun a b => by
  unfold keyLE; exact inferInstance

instance : IsTotal (Nat × Nat) keyLE :=
  ⟨fun a b => by unfold keyLE; omega⟩

instance : IsTrans (Nat × Nat) keyLE :=
  ⟨fun a b c hab hbc => by unfold keyLE at *; omega⟩

/-- The distinct `(country, date)` keys of the melted table in the sorted
order produced by the groupby. -/
def groupKeys (t : List LongRow) : List (Nat × Nat) :=
  List.insertionSort keyLE ((t.map fun r => (r.country, r.date)).dedup)

/-- Line 22 before the `New_Cases` column: one row per `(country, date)`
key, holding the group's summed confirmed count, sorted by key. -/
def groupedBase (dates : List Nat) (rows : List WideRow) : List GRow :=
  (groupKeys (covid_data_melted dates rows)).map fun k =>
    ⟨k.1, k.2, sumConfirmed (covid_data_melted dates rows) k.1 k.2⟩

/-- The state-passing core of line 25:
`groupby('Country/Region')['Confirmed'].diff().fillna(0)`.
`last c` is the confirmed value of the most recent earlier row of country
`c`; the first row of each country has no predecessor, so its `diff` is
`NaN` and `fillna(0)` turns it into `0`. -/
def diffFillAux (last : Nat → Option Int) : List GRow → List GRowN
  | [] => []
  | r :: rs =>
    let nc : Int :=
      match last r.country with
      | some p => r.confirmed - p
      | none => 0
    ⟨r.country, r.date, r.confirmed, nc⟩ ::
      diffFillAux (fun c => if c = r.country then some r.confirmed else last c) rs

/-- Line 25 applied to a grouped table: add the `New_Cases` column. -/
def diffFill (l : List GRow) : List GRowN :=
  diffFillAux (fun _ => none) l

/-- Lines 22-25: the global `covid_data_grouped` table with its
`New_Cases` column, as a function of the wide input. -/
def covid_data_grouped (dates : List Nat) (rows : List WideRow) : List GRowN :=
  diffFill (groupedBase dates rows)

/-- The rows of a grouped table belonging to one country, in table order. -/
def regionRows (g : List GRowN) (c : Nat) : List GRowN :=
  g.filter fun r => decide (r.country = c)

/-- Lines 75-79: the boolean-mask filter of `update_graphs`: keep the rows
whose date lies in `[s, e]` and whose country is selected. -/
def update_graphs_filter (g : List GRowN) (s e : Nat) (sel : List Nat) :
    List GRowN :=
  g.filter fun r => decide (s ≤ r.date) && decide (r.date ≤ e) && sel.contains r.country

/-- Sequential first-difference on a list of rows of one country: `prev` is
the confirmed value of the preceding row when there is one.  `diffFillAux`
restricted to a single country's rows computes exactly this. -/
def seqDiff (prev : Option Int) : List GRow → List GRowN
  | [] => []
  | r :: rs =>
    ⟨r.country, r.date, r.confirmed,
      match prev with
      | some p => r.confirmed - p
      | none => 0⟩ :: seqDiff (some r.confirmed) rs

/-- Running-total helper: `acc` is the sum of the elements already seen. -/
def cumsumAux (acc : Int) : List Int → List Int
  | [] => []
  | x :: xs => (acc + x) :: cumsumAux (acc + x) xs

/-- Cumulative sum starting from zero (the spec's round-trip operation). -/
def cumsum (l : List Int) : List Int := cumsumAux 0 l

/-! ### The summary computed by `update_graphs` (lines 96-105) -/

/-- The countries of a (filtered) grouped table, in the sorted order of a
pandas `groupby('Country/Region')` index. -/
def groupCountries (f : List GRowN) : List Nat :=
  List.insertionSort (· ≤ ·) ((f.map GRowN.country).dedup)

/-- `groupby('Country/Region')['Confirmed'].last()` for one country: the
confirmed value of the country's last row in table order. -/
def lastConfirmed (f : List GRowN) (c : Nat) : Option Int :=
  ((f.filter fun r => decide (r.country = c)).map GRowN.confirmed).getLast?

/-- Line 96/98: the per-country last-confirmed series (country, value),
indexed by the sorted countries of the table. -/
def groupLastConfirmed (f : List GRowN) : List (Nat × Int) :=
  (groupCountries f).filterMap fun c => (lastConfirmed f c).map fun v => (c, v)

/-- Line 97: the per-country sums of the `New_Cases` column. -/
def groupSumNewCases (f : List GRowN) : List (Nat × Int) :=
  (groupCountries f).map fun c =>
    (c, ((f.filter fun r => decide (r.country = c)).map GRowN.new_cases).sum)

/-- Scan for the index (here: the country) of the greatest value, keeping
the first occurrence on ties, as pandas `Series.idxmax` does. -/
def idxmaxAux (best : Nat × Int) : List (Nat × Int) → Nat
  | [] => best.1
  | y :: ys => if best.2 < y.2 then idxmaxAux y ys else idxmaxAux best ys

/-- `Series.idxmax`: the index of the maximal value; on an empty series
pandas raises `ValueError`, modelled as `none`. -/
def idxmax : List (Nat × Int) → Option Nat
  | [] => none
  | x :: xs => some (idxmaxAux x xs)

/-- The value of the Python float division on line 99.  `New_Cases` is a
float column (`diff()` introduces `NaN`, so `fillna(0)` keeps dtype
float64), hence `total_new_cases / days` is IEEE division: with a zero
divisor it yields `+inf`, `-inf` or `NaN` according to the sign of the
numerator — it does not raise. -/
inductive PyDivResult where
  | finite (q : ℚ)
  | inf
  | neginf
  | nan
deriving DecidableEq, Repr

/-- Python/numpy float division of an (integer-valued) float by an
integer number of days. -/
def pyFloatDiv (x d : Int) : PyDivResult :=
  if d = 0 then
    if 0 < x then .inf else if x < 0 then .neginf else .nan
  else .finite ((x : ℚ) / (d : ℚ))

/-- The numeric summary assembled on lines 96-105. -/
structure Summary where
  total_cases : Int
  total_new_cases : Int
  avg_daily_new_cases : PyDivResult
  top_country : Nat
deriving DecidableEq, Repr

/-- Lines 73-114, restricted to the data computations: filter the grouped
table, then compute the summary aggregates.  The only failing operation in
the callback body is `.idxmax()` on the per-country last-confirmed series,
which raises on an empty filtered table; the unhandled failure is modelled
as `none`. -/
def update_graphs (g : List GRowN) (s e : Nat) (sel : List Nat) :
    Option Summary :=
  match idxmax (groupLastConfirmed (update_graphs_filter g s e sel)) with
  | none => none
  | some top =>
      some ⟨((groupLastConfirmed (update_graphs_filter g s e sel)).map Prod.snd).sum,
            ((groupSumNewCases (update_graphs_filter g s e sel)).map Prod.snd).sum,
            pyFloatDiv
              (((groupSumNewCases (update_graphs_filter g s e sel)).map Prod.snd).sum)
              ((e : Int) - (s : Int)),
            top⟩

/-- One callback invocation as a transition on the process state: the
callback reads the module-level `covid_data_grouped` table and returns it
untouched — it only ever builds a fresh filtered copy (line 75). -/
def app_state_step (g : List GRowN) (s e : Nat) (sel : List Nat) :
    Option Summary × List GRowN :=
  (update_graphs g s e sel, g)

/-! ### Concrete input tables used to witness the hypotheses of the
claims' theorems -/

/-- Example date columns (deliberately out of chronological order, as the
groupby sorts them). -/
def exDates : List Nat := [2, 1]

/-- Example wide table: one province of country `0` (confirmed 5 then 7)
and one of country `1` (confirmed 1 then 2). -/
def exRows : List WideRow :=
  [⟨0, 0, 0, 0, fun d => if d = 1 then 5 else 7⟩,
   ⟨1, 1, 0, 0, fun d => d⟩]

/-- Example wide table with two provinces of country `0`, to exercise the
sub-region aggregation. -/
def ex2Rows : List WideRow :=
  [⟨0, 0, 0, 0, fun d => if d = 1 then 5 else 7⟩,
   ⟨1, 0, 0, 0, fun d => if d = 1 then 1 else 3⟩]

/-- Date columns with a gap: days `1` and `4` only. -/
def gapDates : List Nat := [1, 4]

/-! ### Proof infrastructure: the diff on a single country's rows -/

theorem diffFillAux_filter (c : Nat) :
    ∀ (l : List GRow) (last : Nat → Option Int),
      (diffFillAux last l).filter (fun x => decide (x.country = c))
        = seqDiff (last c) (l.filter fun x => decide (x.country = c))
  | [], _ => rfl
  | r :: rs, last => by
    by_cases hc : r.country = c
    · subst hc
      simp only [diffFillAux, List.filter_cons, decide_True, if_pos, seqDiff,
        diffFillAux_filter r.country rs, if_pos rfl]
    · simp only [diffFillAux, List.filter_cons, hc, decide_False, if_neg,
        Bool.false_eq_true, not_false_iff, seqDiff, diffFillAux_filter c rs]
      rw [if_neg (Ne.symm hc)]

theorem seqDiff_map_date (prev : Option Int) :
    ∀ l : List GRow, (seqDiff prev l).map GRowN.date = l.map GRow.date
  | [] => rfl
  | r :: rs => by simp [seqDiff, seqDiff_map_date (some r.confirmed) rs]

theorem seqDiff_map_confirmed (prev : Option Int) :
    ∀ l : List GRow, (seqDiff prev l).map GRowN.confirmed = l.map GRow.confirmed
  | [] => rfl
  | r :: rs => by simp [seqDiff, seqDiff_map_confirmed (some r.confirmed) rs]

theorem seqDiff_length (prev : Option Int) :
    ∀ l : List GRow, (seqDiff prev l).length = l.length
  | [] => rfl
  | r :: rs => by simp [seqDiff, seqDiff_length (some r.confirmed) rs]

theorem seqDiff_head_new_cases (l : List GRow) (x : GRowN)
    (h : (seqDiff none l).head? = some x) : x.new_cases = 0 := by
  cases l with
  | nil => simp [seqDiff] at h
  | cons r rs =>
    simp only [seqDiff, List.head?_cons, Option.some.injEq] at h
    simp [← h]

theorem seqDiff_getD_confirmed (prev : Option Int) (d : GRowN) :
    ∀ (l : List GRow) (i : Nat), i < l.length →
      ((seqDiff prev l).getD i d).confirmed = (l.getD i ⟨0, 0, 0⟩).confirmed
  | [], i, h => by simp at h
  | r :: rs, 0, _ => by simp [seqDiff]
  | r :: rs, i + 1, h => by
    simp only [seqDiff, List.getD_cons_succ]
    exact seqDiff_getD_confirmed (some r.confirmed) d rs i (by simpa using h)

theorem seqDiff_getD_new_cases :
    ∀ (l : List GRow) (prev : Option Int) (i : Nat), i + 1 < l.length →
      ((seqDiff prev l).getD (i + 1) gdefault).new_cases
        = ((seqDiff prev l).getD (i + 1) gdefault).confirmed
          - ((seqDiff prev l).getD i gdefault).confirmed
  | [], _, i, h => by simp at h
  | [r], _, i, h => by simp at h
  | r :: r2 :: rs, prev, 0, _ => by simp [seqDiff]
  | r :: r2 :: rs, prev, i + 1, h => by
    simp only [seqDiff, List.getD_cons_succ]
    exact seqDiff_getD_new_cases (r2 :: rs) (some r.confirmed) i (by simpa using h)

/-! ### Proof infrastructure: the sorted group keys -/

theorem groupKeys_sorted (t : List LongRow) : (groupKeys t).Sorted keyLE :=
  List.sorted_insertionSort keyLE _

theorem groupKeys_nodup (t : List LongRow) : (groupKeys t).Nodup :=
  ((List.perm_insertionSort keyLE _).symm).nodup (List.nodup_dedup _)

theorem groupKeys_mem (t : List LongRow) (k : Nat × Nat) :
    k ∈ groupKeys t ↔ k ∈ t.map fun r => (r.country, r.date) := by
  rw [groupKeys, (List.perm_insertionSort keyLE _).mem_iff, List.mem_dedup]

/-- Within one country, the sorted distinct keys have strictly increasing
dates. -/
theorem groupKeys_region_dates_sorted (t : List LongRow) (c : Nat) :
    (((groupKeys t).filter fun k => decide (k.1 = c)).map Prod.snd).Sorted
      (· < ·) := by
  rw [List.Sorted, List.pairwise_map]
  have h1 : ((groupKeys t).filter fun k => decide (k.1 = c)).Pairwise keyLE :=
    (groupKeys_sorted t).filter _
  have h2 : ((groupKeys t).filter fun k => decide (k.1 = c)).Nodup :=
    (groupKeys_nodup t).filter _
  refine (h1.and h2).imp_of_mem ?_
  intro a b ha hb hab
  have hac : a.1 = c := by simpa using (List.mem_filter.mp ha).2
  have hbc : b.1 = c := by simpa using (List.mem_filter.mp hb).2
  rcases hab with ⟨hle, hne⟩
  rcases hle with hlt | ⟨heq, hle2⟩
  · omega
  · rcases Nat.lt_or_ge a.2 b.2 with h | h
    · exact h
    · exfalso
      exact hne (Prod.ext (by omega) (by omega))

/-- One country's slice of `covid_data_grouped` is the sequential diff of
its (date-sorted) slice of the summed base table. -/
theorem regionRows_grouped (dates : List Nat) (rows : List WideRow) (c : Nat) :
    regionRows (covid_data_grouped dates rows) c
      = seqDiff none
          (((groupKeys (covid_data_melted dates rows)).filter
              fun k => decide (k.1 = c)).map
            fun k => ⟨k.1, k.2, sumConfirmed (covid_data_melted dates rows) k.1 k.2⟩) := by
  unfold regionRows covid_data_grouped diffFill groupedBase
  rw [diffFillAux_filter, List.filter_map]
  rfl

/-- C1: for every region, the grouped rows of that region are in strictly
ascending date order, the first row's `New_Cases` is `0`, and every later
row's `New_Cases` equals its `Confirmed` minus the previous row's
`Confirmed`. -/
theorem C1_new_cases_first_difference (dates : List Nat) (rows : List WideRow)
    (c : Nat) :
    ((regionRows (covid_data_grouped dates rows) c).map GRowN.date).Sorted (· < ·)
    ∧ (∀ x, (regionRows (covid_data_grouped dates rows) c).head? = some x →
        x.new_cases = 0)
    ∧ ∀ i, i + 1 < (regionRows (covid_data_grouped dates rows) c).length →
        ((regionRows (covid_data_grouped dates rows) c).getD (i + 1) gdefault).new_cases
          = ((regionRows (covid_data_grouped dates rows) c).getD (i + 1) gdefault).confirmed
            - ((regionRows (covid_data_grouped dates rows) c).getD i gdefault).confirmed := by
  rw [regionRows_grouped]
  refine ⟨?_, ?_, ?_⟩
  · rw [seqDiff_map_date, List.map_map]
    exact groupKeys_region_dates_sorted (covid_data_melted dates rows) c
  · exact fun x h => seqDiff_head_new_cases _ x h
  · intro i h
    rw [seqDiff_length] at h
    exact seqDiff_getD_new_cases _ none i h

/-- Witness for C1 at a concrete input: region `0` of `exRows`. -/
theorem C1_witness :
    ((regionRows (covid_data_grouped exDates exRows) 0).head? = some ⟨0, 1, 5, 0⟩)
    ∧ (⟨0, 1, 5, 0⟩ : GRowN).new_cases = 0
    ∧ 0 + 1 < (regionRows (covid_data_grouped exDates exRows) 0).length
    ∧ ((regionRows (covid_data_grouped exDates exRows) 0).getD 1 gdefault).new_cases
        = ((regionRows (covid_data_grouped exDates exRows) 0).getD 1 gdefault).confirmed
          - ((regionRows (covid_data_grouped exDates exRows) 0).getD 0 gdefault).confirmed :=
  ⟨by decide,
   (C1_new_cases_first_difference exDates exRows 0).2.1 ⟨0, 1, 5, 0⟩ (by decide),
   by decide,
   (C1_new_cases_first_difference exDates exRows 0).2.2 0 (by decide)⟩

/-! ### C2: cumulative sum of the new-cases series -/

theorem cumsumAux_seqDiff (p : Int) :
    ∀ (l : List GRow) (acc : Int),
      cumsumAux acc ((seqDiff (some p) l).map GRowN.new_cases)
        = l.map fun r => acc + (r.confirmed - p)
  | [], _ => rfl
  | r :: rs, acc => by
    simp only [seqDiff, List.map_cons, cumsumAux,
      cumsumAux_seqDiff r.confirmed rs (acc + (r.confirmed - p))]
    congr 1
    apply List.map_congr_left
    intro a _
    ring

theorem cumsum_seqDiff_getD :
    ∀ (l : List GRow) (i : Nat), i < l.length →
      (cumsum ((seqDiff none l).map GRowN.new_cases)).getD i 0
        = (l.getD i ⟨0, 0, 0⟩).confirmed - (l.getD 0 ⟨0, 0, 0⟩).confirmed
  | [], i, h => by simp at h
  | r :: rs, 0, _ => by simp [cumsum, seqDiff, cumsumAux]
  | r :: rs, i + 1, h => by
    have hi : i < rs.length := by simpa using h
    simp only [cumsum, seqDiff, List.map_cons, cumsumAux, List.getD_cons_succ]
    rw [show ((0 : Int) + 0) = 0 by ring, cumsumAux_seqDiff r.confirmed rs 0]
    rw [List.getD_eq_getElem _ _ (by simpa using hi), List.getD_eq_getElem _ _ hi,
      List.getElem_map, List.getD_cons_zero]
    ring

/-- C2 counterexample: for region `0` of the example table the confirmed
series is `[5, 7]`, its new-cases series is `[0, 2]`, and the cumulative
sum from zero gives `[0, 2] ≠ [5, 7]`: the round trip as stated fails
whenever a region's first confirmed value is nonzero. -/
theorem C2_counterexample :
    cumsum ((regionRows (covid_data_grouped exDates exRows) 0).map GRowN.new_cases)
      ≠ (regionRows (covid_data_grouped exDates exRows) 0).map GRowN.confirmed := by
  decide

/-- C2 (amended): for every region, the cumulative sum from zero of its
new-cases series reproduces the confirmed series shifted by the region's
first confirmed value: entry `i` of the cumulative sum equals
`Confirmed i - Confirmed 0` (so the round trip is exact iff the region's
first confirmed value is zero). -/
theorem C2_cumsum_round_trip (dates : List Nat) (rows : List WideRow) (c : Nat) :
    ∀ i, i < (regionRows (covid_data_grouped dates rows) c).length →
      (cumsum ((regionRows (covid_data_grouped dates rows) c).map
          GRowN.new_cases)).getD i 0
        = ((regionRows (covid_data_grouped dates rows) c).getD i gdefault).confirmed
          - ((regionRows (covid_data_grouped dates rows) c).getD 0 gdefault).confirmed := by
  rw [regionRows_grouped]
  intro i h
  rw [seqDiff_length] at h
  rw [cumsum_seqDiff_getD _ i h,
    seqDiff_getD_confirmed none gdefault _ i h,
    seqDiff_getD_confirmed none gdefault _ 0 (Nat.lt_of_le_of_lt (Nat.zero_le i) h)]

/-- Witness for C2's amended theorem at region `0` of the example table. -/
theorem C2_witness :
    1 < (regionRows (covid_data_grouped exDates exRows) 0).length
    ∧ (cumsum ((regionRows (covid_data_grouped exDates exRows) 0).map
          GRowN.new_cases)).getD 1 0
        = ((regionRows (covid_data_grouped exDates exRows) 0).getD 1 gdefault).confirmed
          - ((regionRows (covid_data_grouped exDates exRows) 0).getD 0 gdefault).confirmed :=
  ⟨by decide, C2_cumsum_round_trip exDates exRows 0 1 (by decide)⟩

/-! ### C3: the reshape-and-aggregate step -/

theorem covid_data_melted_date_mem (ds : List Nat) (rows : List WideRow)
    (r : LongRow) (h : r ∈ covid_data_melted ds rows) : r.date ∈ ds := by
  rcases List.mem_flatMap.mp h with ⟨d, hd, hr⟩
  rcases List.mem_map.mp hr with ⟨w, _, hw⟩
  rw [← hw]
  exact hd

/-- The group sum of the melted table at `(c, d)` equals the sum of
country `c`'s wide-row values in date column `d`, provided the date
columns are distinct (as the named columns of a CSV are). -/
theorem sumConfirmed_melted (rows : List WideRow) (c d : Nat) :
    ∀ ds : List Nat, ds.Nodup → d ∈ ds →
      sumConfirmed (covid_data_melted ds rows) c d
        = ((rows.filter fun w => decide (w.country = c)).map
            fun w => w.values d).sum
  | [], _, hd => absurd hd (List.not_mem_nil d)
  | d0 :: ds, hnd, hd => by
    have hmelt : covid_data_melted (d0 :: ds) rows
        = (rows.map fun w => ⟨w.province, w.country, w.lat, w.long, d0, w.values d0⟩)
          ++ covid_data_melted ds rows := by
      simp [covid_data_melted]
    by_cases h0 : d0 = d
    · subst h0
      have hnot : d0 ∉ ds := (List.nodup_cons.mp hnd).1
      have htail : (covid_data_melted ds rows).filter
          (fun r => decide (r.country = c) && decide (r.date = d0)) = [] := by
        rw [List.filter_eq_nil_iff]
        intro a ha
        have := covid_data_melted_date_mem ds rows a ha
        simp only [Bool.and_eq_true, decide_eq_true_eq, not_and]
        intro _ had
        exact hnot (had ▸ this)
      rw [sumConfirmed, hmelt, List.filter_append, htail, List.append_nil,
        List.filter_map]
      congr 1
      rw [List.map_map]
      congr 1
      apply List.filter_congr
      intro w _
      simp [Function.comp]
    · have hhead : (rows.map fun w =>
            (⟨w.province, w.country, w.lat, w.long, d0, w.values d0⟩ : LongRow)).filter
          (fun r => decide (r.country = c) && decide (r.date = d)) = [] := by
        rw [List.filter_eq_nil_iff]
        intro a ha
        rcases List.mem_map.mp ha with ⟨w, _, hw⟩
        simp only [← hw, Bool.and_eq_true, decide_eq_true_eq, not_and]
        intro _ had
        exact h0 had
      have hd' : d ∈ ds := by
        rcases List.mem_cons.mp hd with h | h
        · exact absurd h.symm h0
        · exact h
      rw [sumConfirmed, hmelt, List.filter_append, hhead, List.nil_append]
      exact sumConfirmed_melted rows c d ds (List.nodup_cons.mp hnd).2 hd'

/-- Each first-three-field projection of the diffed table recovers the
base table: line 25 only appends a column. -/
theorem diffFillAux_map_proj :
    ∀ (l : List GRow) (last : Nat → Option Int),
      (diffFillAux last l).map (fun x => GRow.mk x.country x.date x.confirmed) = l
  | [], _ => rfl
  | r :: rs, last => by
    simp [diffFillAux, diffFillAux_map_proj rs]

theorem mem_covid_data_grouped (dates : List Nat) (rows : List WideRow)
    (x : GRowN) (hx : x ∈ covid_data_grouped dates rows) :
    (x.country, x.date) ∈ groupKeys (covid_data_melted dates rows)
    ∧ x.confirmed
        = sumConfirmed (covid_data_melted dates rows) x.country x.date := by
  have hproj : GRow.mk x.country x.date x.confirmed ∈ groupedBase dates rows := by
    have := List.mem_map_of_mem (fun y : GRowN => GRow.mk y.country y.date y.confirmed) hx
    rwa [covid_data_grouped, diffFill, diffFillAux_map_proj] at this
  rcases List.mem_map.mp hproj with ⟨k, hk, hkx⟩
  have h1 : k.1 = x.country := congrArg GRow.country hkx
  have h2 : k.2 = x.date := congrArg GRow.date hkx
  have h3 : sumConfirmed (covid_data_melted dates rows) k.1 k.2 = x.confirmed :=
    congrArg GRow.confirmed hkx
  constructor
  · rw [← h1, ← h2]
    exact hk
  · rw [← h3, h1, h2]

theorem groupKeys_date_mem (dates : List Nat) (rows : List WideRow)
    (k : Nat × Nat) (hk : k ∈ groupKeys (covid_data_melted dates rows)) :
    k.2 ∈ dates := by
  rcases List.mem_map.mp ((groupKeys_mem _ k).mp hk) with ⟨r, hr, hrk⟩
  have : r.date = k.2 := congrArg Prod.snd hrk
  rw [← this]
  exact covid_data_melted_date_mem dates rows r hr

/-- C3: when the date columns are distinct, every row of the grouped table
carries, as its `Confirmed` value, the sum over the wide rows of its
country (its provinces) of that date column's value. -/
theorem C3_grouped_confirmed_is_province_sum (dates : List Nat)
    (rows : List WideRow) (hnd : dates.Nodup) :
    ∀ x ∈ covid_data_grouped dates rows,
      x.confirmed = ((rows.filter fun w => decide (w.country = x.country)).map
          fun w => w.values x.date).sum := by
  intro x hx
  obtain ⟨hk, hc⟩ := mem_covid_data_grouped dates rows x hx
  have hdm : x.date ∈ dates :=
    groupKeys_date_mem dates rows (x.country, x.date) hk
  rw [hc, sumConfirmed_melted rows x.country x.date dates hnd hdm]

/-- Witness for C3: the grouped row of country `0` at date `1` holds
`6 = 5 + 1`, the sum of its two provinces' values. -/
theorem C3_witness :
    exDates.Nodup
    ∧ (⟨0, 1, 6, 0⟩ : GRowN) ∈ covid_data_grouped exDates ex2Rows
    ∧ (⟨0, 1, 6, 0⟩ : GRowN).confirmed
        = ((ex2Rows.filter fun w => decide (w.country = (⟨0, 1, 6, 0⟩ : GRowN).country)).map
            fun w => w.values (⟨0, 1, 6, 0⟩ : GRowN).date).sum :=
  ⟨by decide, by decide,
   C3_grouped_confirmed_is_province_sum exDates ex2Rows (by decide)
     ⟨0, 1, 6, 0⟩ (by decide)⟩

/-! ### C6: monotonicity of the aggregated confirmed series -/

/-- C6: if every province's per-date-column series is non-decreasing (a
cumulative source) and the date columns are distinct, then within any
country the grouped `Confirmed` value at a later date is at least the
value at any earlier date. -/
theorem C6_confirmed_monotone (dates : List Nat) (rows : List WideRow)
    (hnd : dates.Nodup)
    (hmono : ∀ w ∈ rows, ∀ d1 ∈ dates, ∀ d2 ∈ dates,
      d1 ≤ d2 → w.values d1 ≤ w.values d2) :
    ∀ x ∈ covid_data_grouped dates rows, ∀ y ∈ covid_data_grouped dates rows,
      x.country = y.country → x.date ≤ y.date → x.confirmed ≤ y.confirmed := by
  intro x hx y hy hcc hdd
  obtain ⟨hkx, hcx⟩ := mem_covid_data_grouped dates rows x hx
  obtain ⟨hky, hcy⟩ := mem_covid_data_grouped dates rows y hy
  have hdx : x.date ∈ dates :=
    groupKeys_date_mem dates rows (x.country, x.date) hkx
  have hdy : y.date ∈ dates :=
    groupKeys_date_mem dates rows (y.country, y.date) hky
  rw [hcx, hcy, sumConfirmed_melted rows x.country x.date dates hnd hdx,
    sumConfirmed_melted rows y.country y.date dates hnd hdy, ← hcc]
  apply List.sum_le_sum
  intro w hw
  exact hmono w (List.mem_of_mem_filter hw) x.date hdx y.date hdy hdd

/-- Witness for C6 on the two-province example table: `6 ≤ 10` between
dates `1` and `2` of country `0`. -/
theorem C6_witness :
    exDates.Nodup
    ∧ (∀ w ∈ ex2Rows, ∀ d1 ∈ exDates, ∀ d2 ∈ exDates,
        d1 ≤ d2 → w.values d1 ≤ w.values d2)
    ∧ (⟨0, 1, 6, 0⟩ : GRowN) ∈ covid_data_grouped exDates ex2Rows
    ∧ (⟨0, 2, 10, 4⟩ : GRowN) ∈ covid_data_grouped exDates ex2Rows
    ∧ (⟨0, 1, 6, 0⟩ : GRowN).country = (⟨0, 2, 10, 4⟩ : GRowN).country
    ∧ (⟨0, 1, 6, 0⟩ : GRowN).date ≤ (⟨0, 2, 10, 4⟩ : GRowN).date
    ∧ (⟨0, 1, 6, 0⟩ : GRowN).confirmed ≤ (⟨0, 2, 10, 4⟩ : GRowN).confirmed :=
  ⟨by decide, by decide, by decide, by decide, by decide, by decide,
   C6_confirmed_monotone exDates ex2Rows (by decide) (by decide)
     ⟨0, 1, 6, 0⟩ (by decide) ⟨0, 2, 10, 4⟩ (by decide) (by decide) (by decide)⟩

/-! ### C4 and C5: the date-range/country filter of `update_graphs` -/

/-- Standalone form of the per-region date sortedness of the grouped
table. -/
theorem region_dates_sorted (dates : List Nat) (rows : List WideRow) (c : Nat) :
    ((regionRows (covid_data_grouped dates rows) c).map GRowN.date).Sorted
      (· < ·) := by
  rw [regionRows_grouped, seqDiff_map_date, List.map_map]
  exact groupKeys_region_dates_sorted (covid_data_melted dates rows) c

/-- C5: the filtered table holds exactly the grouped rows whose date lies
in the inclusive range and whose country is selected — characterised both
by membership and by multiplicity. -/
theorem C5_filter_exact (g : List GRowN) (s e : Nat) (sel : List Nat)
    (r : GRowN) :
    (r ∈ update_graphs_filter g s e sel
      ↔ r ∈ g ∧ s ≤ r.date ∧ r.date ≤ e ∧ r.country ∈ sel)
    ∧ (update_graphs_filter g s e sel).count r
        = if s ≤ r.date ∧ r.date ≤ e ∧ r.country ∈ sel then g.count r else 0 := by
  have hmem : r ∈ update_graphs_filter g s e sel
      ↔ r ∈ g ∧ s ≤ r.date ∧ r.date ≤ e ∧ r.country ∈ sel := by
    rw [update_graphs_filter, List.mem_filter]
    simp [List.elem_iff, and_assoc]
  refine ⟨hmem, ?_⟩
  by_cases hp : s ≤ r.date ∧ r.date ≤ e ∧ r.country ∈ sel
  · rw [if_pos hp, update_graphs_filter]
    apply List.count_filter
    simp [List.elem_iff, hp.1, hp.2.1, hp.2.2]
  · rw [if_neg hp]
    apply List.count_eq_zero.mpr
    intro hr
    exact hp (hmem.mp hr).2

/-- C4 counterexample.  First input: on the example table (span `[1, 2]`,
both countries selected), the range `[1, 2]` lies fully inside the span,
yet the filtered rows' dates are `[1, 2, 1, 2]` — ordered by (country,
date), not by date.  Second input: with date columns `{1, 4}` the range
`[2, 3]` lies inside the span `[1, 4]` but contains no dataset date, so
the filtered subset is empty. -/
theorem C4_counterexample :
    ¬ (((update_graphs_filter (covid_data_grouped exDates exRows) 1 2
          [0, 1]).map GRowN.date).Sorted (· ≤ ·))
    ∧ update_graphs_filter (covid_data_grouped gapDates exRows) 2 3 [0, 1]
        = [] := by
  constructor
  · decide
  · decide

/-- C4 (amended): whenever some grouped row has its date inside `[s, e]`
and its country selected, the filtered subset is non-empty; every filtered
row's date lies within the requested bounds (hence so do the subset's
minimum and maximum dates); and the rows are date-sorted within each
country (the table is ordered by (country, date), so the full subset is
date-sorted only when a single country survives the filter). -/
theorem C4_filter_inside_span (dates : List Nat) (rows : List WideRow)
    (s e : Nat) (sel : List Nat)
    (hex : ∃ r ∈ covid_data_grouped dates rows,
      (s ≤ r.date ∧ r.date ≤ e) ∧ r.country ∈ sel) :
    update_graphs_filter (covid_data_grouped dates rows) s e sel ≠ []
    ∧ (∀ r ∈ update_graphs_filter (covid_data_grouped dates rows) s e sel,
        s ≤ r.date ∧ r.date ≤ e)
    ∧ ∀ c, (((update_graphs_filter (covid_data_grouped dates rows) s e sel).filter
          fun r => decide (r.country = c)).map GRowN.date).Sorted (· < ·) := by
  refine ⟨?_, ?_, ?_⟩
  · rcases hex with ⟨r, hr, ⟨hs, he⟩, hc⟩
    apply List.ne_nil_of_mem (a := r)
    rw [update_graphs_filter, List.mem_filter]
    exact ⟨hr, by simp [List.elem_iff, hs, he, hc]⟩
  · intro r hr
    rw [update_graphs_filter, List.mem_filter] at hr
    have := hr.2
    simp only [Bool.and_eq_true, decide_eq_true_eq] at this
    exact ⟨this.1.1, this.1.2⟩
  · intro c
    have hsub : ((update_graphs_filter (covid_data_grouped dates rows) s e sel).filter
          fun r => decide (r.country = c)).Sublist
        (regionRows (covid_data_grouped dates rows) c) :=
      List.Sublist.filter _ (List.filter_sublist _)
    exact (region_dates_sorted dates rows c).sublist (hsub.map GRowN.date)

/-- Witness for C4's amended theorem: range `[1, 2]` with country `0`
selected on the example table. -/
theorem C4_witness :
    (∃ r ∈ covid_data_grouped exDates exRows,
      ((1 : Nat) ≤ r.date ∧ r.date ≤ 2) ∧ r.country ∈ [0])
    ∧ update_graphs_filter (covid_data_grouped exDates exRows) 1 2 [0] ≠ []
    ∧ (∀ r ∈ update_graphs_filter (covid_data_grouped exDates exRows) 1 2 [0],
        1 ≤ r.date ∧ r.date ≤ 2)
    ∧ ∀ c, (((update_graphs_filter (covid_data_grouped exDates exRows) 1 2 [0]).filter
          fun r => decide (r.country = c)).map GRowN.date).Sorted (· < ·) :=
  ⟨by decide, C4_filter_inside_span exDates exRows 1 2 [0] (by decide)⟩

/-! ### C8, C9, C10: the callback's summary computations -/

/-- C8: on an empty filtered subset the callback produces no result: the
`.idxmax()` on line 98 is applied to an empty per-country series and the
failure propagates unhandled. -/
theorem C8_empty_filter_no_result (g : List GRowN) (s e : Nat)
    (sel : List Nat) (h : update_graphs_filter g s e sel = []) :
    update_graphs g s e sel = none := by
  unfold update_graphs
  rw [h]
  rfl

/-- Witness for C8: country `5` does not occur in the example data, so the
filtered subset is empty and the callback fails. -/
theorem C8_witness :
    update_graphs_filter (covid_data_grouped exDates exRows) 1 2 [5] = []
    ∧ update_graphs (covid_data_grouped exDates exRows) 1 2 [5] = none :=
  ⟨by decide,
   C8_empty_filter_no_result (covid_data_grouped exDates exRows) 1 2 [5]
     (by decide)⟩

/-- C9: a callback invocation returns the module-level grouped table
unchanged, so any later invocation sees exactly the original table: the
code never assigns to `covid_data_grouped`; line 75's boolean-mask
indexing builds a fresh copy. -/
theorem C9_no_in_place_mutation (g : List GRowN) (s e s2 e2 : Nat)
    (sel sel2 : List Nat) :
    (app_state_step g s e sel).2 = g
    ∧ app_state_step (app_state_step g s e sel).2 s2 e2 sel2
        = app_state_step g s2 e2 sel2 :=
  ⟨rfl, rfl⟩

/-- C10 counterexample: a one-day range (`start = end = 2`, country `0`)
on the example table makes the callback return a summary normally — with
average daily new cases `+inf` — rather than fail with a division-by-zero
error: `total_new_cases` is a float, and float division by zero yields an
infinity, not an exception. -/
theorem C10_counterexample :
    update_graphs (covid_data_grouped exDates exRows) 2 2 [0]
      = some ⟨7, 2, PyDivResult.inf, 0⟩ := by
  decide

/-- C10 (amended): for a one-day range the divisor `(end - start).days`
is zero, so whenever the callback does return a summary its average daily
new cases is a non-finite float (`+inf`, `-inf` or `NaN`); the average is
a finite number only when the two dates differ. -/
theorem C10_one_day_range_average_not_finite (g : List GRowN) (s : Nat)
    (sel : List Nat) (smry : Summary)
    (h : update_graphs g s s sel = some smry) :
    ∀ q : ℚ, smry.avg_daily_new_cases ≠ PyDivResult.finite q := by
  intro q
  unfold update_graphs at h
  cases hm : idxmax (groupLastConfirmed (update_graphs_filter g s s sel)) with
  | none =>
    rw [hm] at h
    exact absurd h (by simp)
  | some top =>
    rw [hm] at h
    injection h with h2
    rw [← h2]
    show pyFloatDiv _ ((s : Int) - (s : Int)) ≠ PyDivResult.finite q
    rw [sub_self]
    unfold pyFloatDiv
    rw [if_pos rfl]
    split_ifs <;> simp

/-- Witness for C10's amended theorem, instantiated at the example input
and at the candidate finite value `0`. -/
theorem C10_witness :
    update_graphs (covid_data_grouped exDates exRows) 2 2 [0]
      = some ⟨7, 2, PyDivResult.inf, 0⟩
    ∧ (⟨7, 2, PyDivResult.inf, 0⟩ : Summary).avg_daily_new_cases
        ≠ PyDivResult.finite 0 :=
  ⟨by decide,
   C10_one_day_range_average_not_finite (covid_data_grouped exDates exRows)
     2 [0] ⟨7, 2, PyDivResult.inf, 0⟩ (by decide) 0⟩
